import Mathlib

/-!
Shallow embedding, in Lean 4, of the autonomous evolution and multi-agent
interaction engine of the fractal-simulations repository, together with
proofs settling the specification claims about it.

Conventions used throughout:
* JavaScript numbers are embedded as rationals (`ℚ`); every literal such as
  `0.05` is written as the exact rational `5/100`.  The code never relies on
  floating-point rounding for the claimed properties.
* Each call of `Math.random()` in the source becomes an explicit argument
  (a rational draw in `[0,1]`, or a `Bool` for a comparison
  `Math.random() < p` whose draw value itself is irrelevant).  Theorems
  quantify over those draws.
* Distances: the source computes `Math.sqrt(dx*dx+dy*dy)` and compares the
  result with a nonnegative radius `r`.  Where the embedding needs the
  comparison at the call site it uses the equivalent squared comparison
  `dx*dx+dy*dy < r*r`; functions that receive a ready-made `distance`
  argument in the source receive the same nonnegative `dist : ℚ` here.
* `sin`/`cos` values feeding the consciousness parameters are abstracted as
  arbitrary rational inputs (`raw` below): the clamping behaviour claimed by
  the specification holds for every value of the transcendental sum, so no
  real-number model is needed.
-/

/-! ## Consciousness core (src/fractals/core/consciousness.js) -/

/-- Evolution bookkeeping of `ConsciousnessCore` (`this.evolution`).
The source stores `phaseShift` as a float that only ever changes by
`+= Math.PI / 3` at a phase transition; the embedding stores the integer
number of `π/3` increments (`phaseShiftThirds`), so
`phaseShift = phaseShiftThirds * π / 3` exactly. -/
structure Evolution where
  time : ℕ
  cycle : ℕ
  phaseShiftThirds : ℕ
  lastTransition : ℕ
deriving DecidableEq, Repr

/-- Initial `this.evolution` from the `ConsciousnessCore` constructor. -/
def initEvolution : Evolution :=
  { time := 0, cycle := 0, phaseShiftThirds := 0, lastTransition := 0 }

/-- Effect of one `evolve()` call on the evolution record: `time++`, then
`if (this.evolution.time - this.evolution.lastTransition > 1500)
  this.triggerPhaseTransition()`, where `triggerPhaseTransition` does
`phaseShift += π/3; cycle++; lastTransition = time` (the random attractor
perturbation touches only `this.attractor`, not this record). -/
def evolveStep (e : Evolution) : Evolution :=
  let t := e.time + 1
  if 1500 < t - e.lastTransition then
    { time := t, cycle := e.cycle + 1,
      phaseShiftThirds := e.phaseShiftThirds + 1, lastTransition := t }
  else
    { e with time := t }

/-- Evolution record after `n` successive `evolve()` calls from a state. -/
def evolveIter (n : ℕ) (e : Evolution) : Evolution :=
  evolveStep^[n] e

/-- Clamp applied to every consciousness parameter at the end of `evolve()`:
`Math.max(0.1, Math.min(0.9, value))`. -/
def clampParam (x : ℚ) : ℚ := max (1/10) (min (9/10) x)

/-- The four consciousness parameters. -/
structure ConsciousnessParams where
  complexity : ℚ
  emergence : ℚ
  coherence : ℚ
  adaptation : ℚ
deriving DecidableEq, Repr

/-- Parameter recomputation inside `evolve()`: each parameter becomes
`clamp(0.5 + sinusoidal sum)`.  The transcendental sum is abstracted as the
`raw` input (one rational per parameter); the clamp is the code's. -/
def evolveParams (raw : ConsciousnessParams) : ConsciousnessParams :=
  { complexity := clampParam raw.complexity
    emergence := clampParam raw.emergence
    coherence := clampParam raw.coherence
    adaptation := clampParam raw.adaptation }

/-- Predicate: every consciousness parameter lies in `[lo, hi]`. -/
def ParamsIn (p : ConsciousnessParams) (lo hi : ℚ) : Prop :=
  lo ≤ p.complexity ∧ p.complexity ≤ hi ∧
  lo ≤ p.emergence ∧ p.emergence ≤ hi ∧
  lo ≤ p.coherence ∧ p.coherence ≤ hi ∧
  lo ≤ p.adaptation ∧ p.adaptation ≤ hi

instance (p : ConsciousnessParams) (lo hi : ℚ) : Decidable (ParamsIn p lo hi) := by
  unfold ParamsIn; infer_instance

/-! ## AI experience global state
(src/fractals/simulations/ai-experience.js, `updateGlobalState`) -/

/-- Slice of a processing thread read by `updateGlobalState`. -/
structure AIThread where
  confidence : ℚ
  uncertainty : ℚ
deriving DecidableEq, Repr

/-- Slice of `AIExperienceSimulation` state feeding `updateGlobalState`. -/
structure AIGlobalState where
  threads : List AIThread
  insightCount : ℕ
  processingLoad : ℚ
  params : ConsciousnessParams
  globalUncertainty : ℚ
  averageConfidence : ℚ
deriving Repr

/-- `getAverageConfidence()`: returns `0.5` on an empty thread pool,
otherwise the mean confidence. -/
def getAverageConfidence (ts : List AIThread) : ℚ :=
  if ts.length = 0 then 1/2
  else (ts.map (fun t => t.confidence)).sum / ts.length

/-- `Math.min(0.02, x)`, the cap on each consciousness boost. -/
def boostCap (x : ℚ) : ℚ := min (1/50) x

/-- `updateGlobalState()`: recomputes `globalUncertainty` (mean thread
uncertainty; the source divides with no zero-guard, which in `ℚ` yields `0`
for an empty pool) and `averageConfidence`, then adds a capped boost to each
consciousness parameter, clamped above by `Math.min(1, ...)` — note the cap
is `1`, not `0.9`. -/
def updateGlobalState (s : AIGlobalState) : AIGlobalState :=
  let gu := (s.threads.map (fun t => t.uncertainty)).sum / s.threads.length
  let ac := getAverageConfidence s.threads
  let bComplexity := boostCap (s.processingLoad * (1/100))
  let bEmergence := boostCap ((s.insightCount : ℚ) * (2/1000))
  let bCoherence := boostCap (ac * (1/100))
  let bAdaptation := boostCap ((1 - gu) * (1/100))
  { s with
    globalUncertainty := gu
    averageConfidence := ac
    params :=
      { complexity := min 1 (s.params.complexity + bComplexity)
        emergence := min 1 (s.params.emergence + bEmergence)
        coherence := min 1 (s.params.coherence + bCoherence)
        adaptation := min 1 (s.params.adaptation + bAdaptation) } }

/-- Re-clamp of a thread's confidence in `updateProcessingThreads`:
`Math.max(0, Math.min(1, thread.confidence))`; `uncertainty` is then set to
`1 - confidence`. -/
def threadClampConfidence (x : ℚ) : ℚ := max 0 (min 1 x)

/-! ## Digital ecosystem (src/fractals/simulations/digital-ecosystem.js) -/

/-- The five entity kinds of `this.entityTypes` / `this.populations`. -/
inductive EntityType where
  | producer
  | consumer
  | decomposer
  | predator
  | symbiont
deriving DecidableEq, Repr

/-- All five entity kinds (key order of the `populations` object literal). -/
def allEntityTypes : List EntityType :=
  [.producer, .consumer, .decomposer, .predator, .symbiont]

/-- Genetic trait record (`entity.genetics`). -/
structure Genetics where
  speed : ℚ
  size : ℚ
  energy : ℚ
  aggression : ℚ
  cooperation : ℚ
  adaptability : ℚ
  efficiency : ℚ
deriving DecidableEq, Repr

/-- Slice of an ecosystem entity carrying every field the claims touch
(`id`, kind, position, energy, `maxEnergy`, age, genetics, reproduction
cooldown and the persistent relationship edges `id ↦ strength`).  Velocity,
colour, memory, fitness and the action/target fields only feed movement and
rendering and are not read by any function embedded here. -/
structure Entity where
  ident : ℕ
  etype : EntityType
  x : ℚ
  y : ℚ
  energy : ℚ
  maxEnergy : ℚ
  age : ℕ
  genetics : Genetics
  reproductionCooldown : ℕ
  relationships : List (ℕ × ℚ)
deriving DecidableEq, Repr

instance : Inhabited Entity :=
  ⟨{ ident := 0, etype := .producer, x := 0, y := 0, energy := 0,
     maxEnergy := 0, age := 0,
     genetics := { speed := 0, size := 0, energy := 0, aggression := 0,
                   cooperation := 0, adaptability := 0, efficiency := 0 },
     reproductionCooldown := 0, relationships := [] }⟩

/-- Squared Euclidean distance between two entities; the source compares
`Math.sqrt` of this against a radius, equivalently this against the squared
radius. -/
def distSq (e1 e2 : Entity) : ℚ :=
  (e1.x - e2.x) * (e1.x - e2.x) + (e1.y - e2.y) * (e1.y - e2.y)

/-- `config.competitionRadius` (50). -/
def competitionRadius : ℚ := 50

/-- `config.cooperationRadius` (30). -/
def cooperationRadius : ℚ := 30

/-- Predator membership test of `handlePredatorPrey`
(`predatorTypes = ['predator']`). -/
def isPredatorType (t : EntityType) : Bool := t = .predator

/-- Prey membership test of `handlePredatorPrey`
(`preyTypes = ['producer', 'consumer', 'decomposer']`). -/
def isPreyType (t : EntityType) : Bool :=
  t = .producer || t = .consumer || t = .decomposer

/-- Hunting attempt of `handlePredatorPrey` once the roles are assigned:
within `predator.size * 3`, when the `Math.random()` outcome `draw` falls
below `huntSuccess * 0.1` with
`huntSuccess = predator.speed / (prey.speed + 0.1)`, the predator gains
`0.3 * prey.energy` and the prey keeps `0.3` of its energy; otherwise both
are unchanged. -/
def huntAttempt (pred prey : Entity) (dist draw : ℚ) : Entity × Entity :=
  if dist < pred.genetics.size * 3 then
    if draw < pred.genetics.speed / (prey.genetics.speed + 1/10) * (1/10) then
      ({ pred with energy := pred.energy + prey.energy * (3/10) },
       { prey with energy := prey.energy * (3/10) })
    else (pred, prey)
  else (pred, prey)

/-- `handlePredatorPrey(entity1, entity2, distance)`: assigns the
predator/prey roles from the membership lists (`entity1` predator first,
as in the source's if/else-if), performs at most one hunting attempt, and
returns the pair in the original `(entity1, entity2)` order. -/
def handlePredatorPrey (e1 e2 : Entity) (dist draw : ℚ) : Entity × Entity :=
  if isPredatorType e1.etype ∧ isPreyType e2.etype then
    huntAttempt e1 e2 dist draw
  else if isPredatorType e2.etype ∧ isPreyType e1.etype then
    ((huntAttempt e2 e1 dist draw).2, (huntAttempt e2 e1 dist draw).1)
  else (e1, e2)

/-- Competition block of `handleEntityInteraction`: same kind within
`competitionRadius / 2` costs both entities a flat
`blendedAggression * 0.05` of energy (no distance factor). -/
def competitionStep (e1 e2 : Entity) (dist : ℚ) : Entity × Entity :=
  if e1.etype = e2.etype ∧ dist < competitionRadius / 2 then
    let competition := (e1.genetics.aggression + e2.genetics.aggression) / 2
    ({ e1 with energy := e1.energy - competition * (5/100) },
     { e2 with energy := e2.energy - competition * (5/100) })
  else (e1, e2)

/-- Relationship recording of the cooperation block
(`if (!entity.relationships.has(otherId)) entity.relationships.set(...)`):
adds a symbiosis edge of the given strength unless one for this partner
already exists. -/
def addRelationship (e : Entity) (partner : ℕ) (strength : ℚ) : Entity :=
  { e with relationships :=
      if (e.relationships.lookup partner).isNone
      then e.relationships ++ [(partner, strength)]
      else e.relationships }

/-- Cooperation block of `handleEntityInteraction`: different kinds within
`cooperationRadius` with blended cooperation above `0.3` gain a flat
`blendedCooperation * 0.03` of energy each (no distance factor) and record
a symbiosis relationship edge on both sides if the pair has none yet. -/
def cooperationStep (e1 e2 : Entity) (dist : ℚ) : Entity × Entity :=
  if e1.etype ≠ e2.etype ∧ dist < cooperationRadius then
    let cooperation := (e1.genetics.cooperation + e2.genetics.cooperation) / 2
    if 3/10 < cooperation then
      (addRelationship { e1 with energy := e1.energy + cooperation * (3/100) }
        e2.ident cooperation,
       addRelationship { e2 with energy := e2.energy + cooperation * (3/100) }
        e1.ident cooperation)
    else (e1, e2)
  else (e1, e2)

/-- `handleEntityInteraction(entity1, entity2, distance)`: the three
blocks run in source order — competition, cooperation, then the
predator/prey attempt (`config.predatorPrey` is `true`) — each reading the
pair as left by the previous block.  The three checks are independent;
none of the energy effects is scaled by the distance, which is only
compared against the radii.  The `evolution.competition/cooperation`
counters live on the simulation object and are not part of the pair
returned here. -/
def handleEntityInteraction (e1 e2 : Entity) (dist draw : ℚ) :
    Entity × Entity :=
  let a := competitionStep e1 e2 dist
  let b := cooperationStep a.1 a.2 dist
  handlePredatorPrey b.1 b.2 dist draw

/-- Index pairs visited by the nested loops of `handleInteractions`:
`i` from `0`, `j` from `i+1`, over a list of `n` entities — exactly the
pairs `(i, j)` with `i < j < n`, each once. -/
def allPairs (n : ℕ) : List (ℕ × ℕ) :=
  ((List.range n).product (List.range n)).filter (fun p => p.1 < p.2)

/-- Predicate: the index pair `p` addresses two entities of `es` currently
within the interaction radius (`distance < config.competitionRadius`). -/
def WithinRadiusPair (es : List Entity) (p : ℕ × ℕ) : Prop :=
  p.1 < p.2 ∧ p.2 < es.length ∧
  distSq es[p.1]! es[p.2]! < competitionRadius * competitionRadius

instance (es : List Entity) (p : ℕ × ℕ) : Decidable (WithinRadiusPair es p) := by
  unfold WithinRadiusPair; infer_instance

/-- Association set of one tick: `handleInteractions` walks `allPairs` over
the current entity list and hands exactly the pairs within
`competitionRadius` to `handleEntityInteraction`.  Nothing of this list is
stored on the simulation object; it is recomputed from entity positions on
every call. -/
def tickAssociations (es : List Entity) : List (ℕ × ℕ) :=
  (allPairs es.length).filter (fun p =>
    distSq es[p.1]! es[p.2]! < competitionRadius * competitionRadius)

/-! ## Lifecycle: reproduction and offspring creation -/

/-- `Math.max(0, Math.min(1, x))`, used on inherited aggression/cooperation. -/
def clamp01 (x : ℚ) : ℚ := max 0 (min 1 x)

/-- Random draws consumed by `createEntity(type, parent)` on the parent
path: the `Math.random() < config.mutationRate` gate, the five trait
perturbation draws, the fresh id, and the position draws (already scaled to
canvas coordinates). -/
structure EntityRand where
  gate : Bool
  dSpeed : ℚ
  dSize : ℚ
  dEnergy : ℚ
  dAggr : ℚ
  dCoop : ℚ
  ident : ℕ
  px : ℚ
  py : ℚ
deriving Repr

/-- `createEntity(type, parent)` with `parent ≠ null`: genetics are copied
from the parent and, when the gate draw fires, five traits are perturbed
additively with their floors/clamps; the new entity starts with
`energy = genetics.energy`, `maxEnergy = genetics.energy * 1.5`, `age = 0`,
`reproductionCooldown = 0` and no relationships.  Velocity, colour, memory
and fitness fields are initialized by the source but not carried here. -/
def createEntityFromParent (p : Entity) (r : EntityRand) : Entity :=
  let g0 := p.genetics
  let g := if r.gate then
    { g0 with
      speed := max (1/10) (g0.speed + (r.dSpeed - 1/2) * (2/10))
      size := max 1 (g0.size + (r.dSize - 1/2) * (5/10))
      energy := max 10 (g0.energy + (r.dEnergy - 1/2) * 10)
      aggression := clamp01 (g0.aggression + (r.dAggr - 1/2) * (1/10))
      cooperation := clamp01 (g0.cooperation + (r.dCoop - 1/2) * (1/10)) }
  else g0
  { ident := r.ident, etype := p.etype, x := r.px, y := r.py,
    energy := g.energy, maxEnergy := g.energy * (3/2), age := 0,
    genetics := g, reproductionCooldown := 0, relationships := [] }

/-- Component-wise mean of the parents' genetics, as assigned to
`offspring.genetics` in `createOffspring`. -/
def mixGenetics (g1 g2 : Genetics) : Genetics :=
  { speed := (g1.speed + g2.speed) / 2
    size := (g1.size + g2.size) / 2
    energy := (g1.energy + g2.energy) / 2
    aggression := (g1.aggression + g2.aggression) / 2
    cooperation := (g1.cooperation + g2.cooperation) / 2
    adaptability := (g1.adaptability + g2.adaptability) / 2
    efficiency := (g1.efficiency + g2.efficiency) / 2 }

/-- Mutation block of `createOffspring`: ONE draw
(`Math.random() < config.mutationRate`, the `gate`) decides mutation for the
whole offspring; when it fires, every trait is multiplied by
`1 + (draw - 0.5) * 0.1` (per-trait draws `d`) and floored at `0.1`
(`Math.max(0.1, ...)`); otherwise the genetics pass through unchanged. -/
def applyMutation (gate : Bool) (d : Genetics) (g : Genetics) : Genetics :=
  if gate then
    { speed := max (1/10) (g.speed * (1 + (d.speed - 1/2) * (1/10)))
      size := max (1/10) (g.size * (1 + (d.size - 1/2) * (1/10)))
      energy := max (1/10) (g.energy * (1 + (d.energy - 1/2) * (1/10)))
      aggression := max (1/10) (g.aggression * (1 + (d.aggression - 1/2) * (1/10)))
      cooperation := max (1/10) (g.cooperation * (1 + (d.cooperation - 1/2) * (1/10)))
      adaptability := max (1/10) (g.adaptability * (1 + (d.adaptability - 1/2) * (1/10)))
      efficiency := max (1/10) (g.efficiency * (1 + (d.efficiency - 1/2) * (1/10))) }
  else g

/-- Random draws consumed by one `createOffspring` call. -/
structure OffspringRand where
  er : EntityRand
  mutGate : Bool
  mutDraws : Genetics
  jx : ℚ
  jy : ℚ
deriving Repr

/-- `createOffspring(parent1, parent2)`: builds a base entity from
`parent1` via `createEntity`, overwrites its genetics with the component-wise
parent mean, applies the (single-gate) mutation block, and positions the
offspring near the parents' midpoint.  `energy`/`maxEnergy` keep the values
set by `createEntity` from `parent1`'s (possibly `createEntity`-perturbed)
genetics — the source does not recompute them from the mixed genetics. -/
def createOffspring (p1 p2 : Entity) (r : OffspringRand) : Entity :=
  let off := createEntityFromParent p1 r.er
  { off with
    genetics := applyMutation r.mutGate r.mutDraws (mixGenetics p1.genetics p2.genetics)
    x := (p1.x + p2.x) / 2 + (r.jx - 1/2) * 20
    y := (p1.y + p2.y) / 2 + (r.jy - 1/2) * 20 }

/-- Reproduction eligibility filter of `handleReproduction`:
`energy > maxEnergy * 0.8 && reproductionCooldown === 0 && age > 50`. -/
def isReproducer (e : Entity) : Bool :=
  decide (e.maxEnergy * (8/10) < e.energy) &&
  (e.reproductionCooldown == 0) && decide (50 < e.age)

/-- Pairing of the eligible list in collection order, two at a time
(`for i += 2` with the `i + 1 < length` guard): complete pairs only. -/
def chunkPairs : List ℕ → List (ℕ × ℕ)
  | a :: b :: rest => (a, b) :: chunkPairs rest
  | _ => []

/-- `handleReproduction` on one population: filter the reproducers, pair
them in order, and for each complete pair whose per-pair draw succeeds
(`Math.random() < config.reproductionRate`, the `draw` argument, indexed by
pair number) append `createOffspring(parent1, parent2)` to the population
and charge both parents (`energy *= 0.7`, `reproductionCooldown = 100`).
`lastReproduction = Date.now()` is wall-clock bookkeeping feeding only the
fitness display and is not modelled. -/
def handleReproductionPop (pop : List Entity) (draw : ℕ → Bool)
    (orand : ℕ → OffspringRand) : List Entity :=
  let ridx := ((pop.enum).filter (fun pe => isReproducer pe.2)).map (fun pe => pe.1)
  let events := ((chunkPairs ridx).enum.filter (fun pk => draw pk.1)).map (fun pk => pk.2)
  let parentIdx := events.flatMap (fun ab => [ab.1, ab.2])
  let offsprings := events.enum.map (fun kab =>
    createOffspring pop[kab.2.1]! pop[kab.2.2]! (orand kab.1))
  (pop.enum.map (fun pe =>
    if pe.1 ∈ parentIdx then
      { pe.2 with energy := pe.2.energy * (7/10), reproductionCooldown := 100 }
    else pe.2)) ++ offsprings

/-! ## Ecosystem state, initialize / reset / getState -/

/-- Resource patch of `this.environment.resources`. -/
structure Resource where
  x : ℚ
  y : ℚ
  value : ℚ
  isEnergyKind : Bool
  regeneration : ℚ
deriving Repr

/-- Toxin blob of `this.environment.toxins`. -/
structure Toxin where
  x : ℚ
  y : ℚ
  radius : ℚ
  toxicity : ℚ
  decay : ℚ
deriving Repr

/-- `this.evolution` metrics of the ecosystem simulation. -/
structure EvoMetrics where
  generation : ℚ
  avgFitness : ℚ
  diversity : ℚ
  cooperation : ℚ
  competition : ℚ
  complexity : ℚ
deriving DecidableEq, Repr

/-- All-zero metrics, as set in the constructor and in `reset()`. -/
def zeroMetrics : EvoMetrics :=
  { generation := 0, avgFitness := 0, diversity := 0, cooperation := 0,
    competition := 0, complexity := 0 }

/-- Mutable ecosystem state touched by `initialize`/`reset`/`getState`:
per-kind populations, environment resources/toxins plus the three scalar
conditions, and the evolution metrics.  The `connectionNetwork` map is
rebuilt from scratch by `setupInteractionNetworks()` inside `initialize()`
and feeds rendering only; it is not part of the claims and not carried. -/
structure EcoState where
  populations : EntityType → List Entity
  resources : List Resource
  toxins : List Toxin
  temperature : ℚ
  oxygen : ℚ
  nutrients : ℚ
  metrics : EvoMetrics

/-- `getAllEntities()`: `Object.values(this.populations).flat()` in the key
order of the populations object literal. -/
def allEntities (s : EcoState) : List Entity :=
  allEntityTypes.flatMap s.populations

/-- `Math.floor(config.entityCount / typeNames.length)` = `150 / 5` = 30. -/
def entitiesPerType : ℕ := 150 / 5

/-- Number of iterations of the resource-seeding loop
`for (i = 0; i < w * h * resourceDensity / 5000; i++)` — the ceiling of the
(possibly fractional) rational bound `w * h * 0.7 / 5000`. -/
def numInitResources (w h : ℕ) : ℕ := Nat.ceil ((w : ℚ) * h * (7/10) / 5000)

/-- `initializeEnvironment()`: pushes `numInitResources` fresh patches onto
the EXISTING resource array (`genR i` is the i-th randomly drawn patch) and,
when the 10%-probability draw fires, one toxin.  Nothing is cleared. -/
def initializeEnvironment (w h : ℕ) (genR : ℕ → Resource) (toxinDraw : Bool)
    (genT : Toxin) (s : EcoState) : EcoState :=
  { s with
    resources := s.resources ++ (List.range (numInitResources w h)).map genR
    toxins := s.toxins ++ (if toxinDraw then [genT] else []) }

/-- `initializePopulations()`: pushes `entitiesPerType` freshly created
entities per kind onto the EXISTING population arrays (`gen t i` is the
i-th random `createEntity(t)`).  Nothing is cleared. -/
def initializePopulations (gen : EntityType → ℕ → Entity) (s : EcoState) :
    EcoState :=
  { s with populations := fun t =>
      s.populations t ++ (List.range entitiesPerType).map (gen t) }

/-- `initialize()`: `initializeEnvironment(); initializePopulations();
setupInteractionNetworks()` — the last rebuilds only the (unmodelled)
`connectionNetwork` and touches neither populations nor resources. -/
def ecoInitialize (w h : ℕ) (gen : EntityType → ℕ → Entity)
    (genR : ℕ → Resource) (toxinDraw : Bool) (genT : Toxin) (s : EcoState) :
    EcoState :=
  initializePopulations gen (initializeEnvironment w h genR toxinDraw genT s)

/-- `reset()`: clears every population, empties resources and toxins,
restores the three environment scalars and the metrics to their
constructor values, and only then calls `initialize()`. -/
def ecoReset (w h : ℕ) (gen : EntityType → ℕ → Entity) (genR : ℕ → Resource)
    (toxinDraw : Bool) (genT : Toxin) (s : EcoState) : EcoState :=
  ecoInitialize w h gen genR toxinDraw genT
    { s with
      populations := fun _ => []
      resources := []
      toxins := []
      temperature := 1/2
      oxygen := 8/10
      nutrients := 6/10
      metrics := zeroMetrics }

/-- Snapshot object returned by the ecosystem's `getState()`. -/
structure EcoSnapshot where
  entityCount : ℕ
  populationCounts : EntityType → ℕ
  metrics : EvoMetrics
  temperature : ℚ
  oxygen : ℚ
  nutrients : ℚ
  avgAge : ℚ
  avgEnergy : ℚ
  totalConnections : ℕ

/-- `getState()`: population counts, copied metrics and environment
scalars, the two averages guarded by `allEntities.length > 0 ? ... : 0`,
and the total relationship count. -/
def getEcoState (s : EcoState) : EcoSnapshot :=
  let es := allEntities s
  { entityCount := es.length
    populationCounts := fun t => (s.populations t).length
    metrics := s.metrics
    temperature := s.temperature
    oxygen := s.oxygen
    nutrients := s.nutrients
    avgAge := if 0 < es.length then
        ((es.map (fun e => (e.age : ℚ))).sum) / es.length else 0
    avgEnergy := if 0 < es.length then
        ((es.map (fun e => e.energy)).sum) / es.length else 0
    totalConnections := (es.map (fun e => e.relationships.length)).sum }

/-! ## Orchestrator update pass (src: orchestrator `updateSimulations`,
'all' mode) and the per-subsystem exception structure -/

/-- Top of `AIExperienceSimulation.update()`: the whole body runs inside
`try { ... } catch (error) { console.error(...); possible lazy reinit }` —
an exception from the body is swallowed and a recovery function of the
error and the pre-tick state produces the resulting state.  This is the
ONLY simulation `update()` in the repository with such a catch. -/
def aiUpdateTop {σ ε : Type} (body : σ → Except ε σ) (recover : ε → σ → σ)
    (s : σ) : σ :=
  match body s with
  | .ok s' => s'
  | .error e => recover e s

/-- `FractalOrchestrator.updateSimulations()` in the default 'all' mode:
`Object.values(this.simulations).forEach(sim => sim.update())` in the key
order `neural, cellular, ecosystem, consciousness, aiExperience`.  The
first four updates contain no `try`/`catch`, so an exception from any of
them propagates out of `updateSimulations` (modelled by the `Except`
monad's short-circuiting); only the AI-experience update wraps its body in
a catch. -/
def updateSimulationsAll {σ ε : Type}
    (neural cellular eco consc aiBody : σ → Except ε σ)
    (aiRecover : ε → σ → σ) (s : σ) : Except ε σ := do
  let s1 ← neural s
  let s2 ← cellular s1
  let s3 ← eco s2
  let s4 ← consc s3
  pure (aiUpdateTop aiBody aiRecover s4)

/-! ## Theorems -/

/-- Closed form of the evolution record: `evolve()` increments `time` every
call and fires a phase transition exactly when the new time passes a
multiple of 1501 (the guard is the strict `time - lastTransition > 1500`),
so after `n` calls `cycle = phaseShiftThirds = n / 1501` and
`lastTransition = 1501 * (n / 1501)`. -/
theorem evolveIter_initEvolution (n : ℕ) :
    evolveIter n initEvolution =
      { time := n, cycle := n / 1501, phaseShiftThirds := n / 1501,
        lastTransition := 1501 * (n / 1501) } := by
  induction n with
  | zero => simp [evolveIter, initEvolution]
  | succ n ih =>
    have h : evolveIter (n + 1) initEvolution =
        evolveStep (evolveIter n initEvolution) := by
      simp [evolveIter, Function.iterate_succ_apply']
    rw [h, ih]
    simp only [evolveStep]
    split
    · simp only [Evolution.mk.injEq]
      refine ⟨trivial, ?_, ?_, ?_⟩ <;> omega
    · simp only [Evolution.mk.injEq]
      refine ⟨trivial, ?_, ?_, ?_⟩ <;> omega

/-- C2 counterexample: started from the constructor state and evolved for
exactly 3000 ticks with no external interference, the consciousness core
reaches `evolution.time = 3000` but `evolution.cycle = 1`, not 2 — the
transition guard `time - lastTransition > 1500` is strict, so transitions
fire at times 1501 and 3002, i.e. every 1501 ticks, not every 1500. -/
theorem C2_counterexample :
    (evolveIter 3000 initEvolution).time = 3000 ∧
    (evolveIter 3000 initEvolution).cycle = 1 ∧
    (evolveIter 3000 initEvolution).cycle ≠ 2 := by
  rw [evolveIter_initEvolution]
  refine ⟨rfl, by norm_num, by norm_num⟩

/-- C2 amended: from the initial state, `evolution.time` equals the number
of `evolve()` calls and phase transitions fire every 1501 ticks (exactly
when `time - lastTransition` first exceeds 1500), each incrementing the
cycle counter and adding `π/3` to the phase-shift angle (`phaseShiftThirds`
counts the `π/3` increments and always equals `cycle`); hence after 3000
calls `time = 3000` and `cycle = 1`, with the first two transitions at
times 1501 and 3002. -/
theorem C2_amended_periodicity (n : ℕ) :
    (evolveIter n initEvolution).time = n ∧
    (evolveIter n initEvolution).cycle = n / 1501 ∧
    (evolveIter n initEvolution).phaseShiftThirds =
      (evolveIter n initEvolution).cycle ∧
    (evolveIter 1501 initEvolution).cycle = 1 ∧
    (evolveIter 3002 initEvolution).cycle = 2 ∧
    (evolveIter 3000 initEvolution).cycle = 1 := by
  rw [evolveIter_initEvolution, evolveIter_initEvolution,
    evolveIter_initEvolution, evolveIter_initEvolution]
  norm_num

/-- Concrete AI-experience global state for the C1 counterexample: one
thread at confidence/uncertainty `0.5`, processing load 2, and consciousness
parameters at the post-`evolve()` values `⟨0.9, 0.5, 0.5, 0.5⟩` (complexity
0.9 is exactly `clampParam` of any raw value ≥ 0.9). -/
def c1State : AIGlobalState :=
  { threads := [{ confidence := 1/2, uncertainty := 1/2 }]
    insightCount := 0
    processingLoad := 2
    params := { complexity := 9/10, emergence := 1/2, coherence := 1/2,
                adaptation := 1/2 }
    globalUncertainty := 1/2
    averageConfidence := 1/2 }

/-- Two same-kind, low-energy, high-aggression entities in contact, for the
ecosystem half of the C1 counterexample. -/
def c1EntityA : Entity :=
  { ident := 1, etype := .producer, x := 0, y := 0, energy := 1/100,
    maxEnergy := 1, age := 10,
    genetics := { speed := 1, size := 1, energy := 1, aggression := 1,
                  cooperation := 0, adaptability := 0, efficiency := 0 },
    reproductionCooldown := 0, relationships := [] }

/-- Interaction partner of `c1EntityA` (same kind, aggression 1). -/
def c1EntityB : Entity :=
  { c1EntityA with ident := 2, x := 3, y := 4 }

/-- C1 counterexample: the bounds invariant fails after `update()`.
(1) Complexity 0.9 is a reachable post-`evolve()` value (`clampParam 1`),
and on `c1State` the AI experience's `updateGlobalState` — called inside
its `update()` — raises complexity to `min(1, 0.9 + min(0.02, 2·0.01)) =
0.92 ∉ [0.1, 0.9]`, because its clamp caps at 1, not 0.9.
(2) In the ecosystem's interaction step, the flat competition penalty
drives a same-kind pair's energy from `0.01` to `-0.04 < 0`, outside
`[0,1]` (entities with negative energy are only culled on the next tick's
population filter). -/
theorem C1_counterexample :
    clampParam 1 = 9/10 ∧
    (updateGlobalState c1State).params.complexity = 23/25 ∧
    ¬((updateGlobalState c1State).params.complexity ≤ 9/10) ∧
    (handleEntityInteraction c1EntityA c1EntityB 5 1).1.energy = -(1/25) ∧
    (handleEntityInteraction c1EntityA c1EntityB 5 1).1.energy < 0 := by
  refine ⟨by norm_num [clampParam], ?_, ?_, ?_, ?_⟩ <;>
    norm_num [updateGlobalState, c1State, getAverageConfidence, boostCap,
      handleEntityInteraction, competitionStep, cooperationStep,
      handlePredatorPrey, huntAttempt, c1EntityA, c1EntityB,
      competitionRadius, cooperationRadius, isPredatorType, isPreyType]

/-- Helper: a list of rationals bounded above by 1 sums to at most its
length. -/
theorem list_sum_le_length {l : List ℚ} (h : ∀ x ∈ l, x ≤ 1) :
    l.sum ≤ l.length := by
  have := List.sum_le_card_nsmul l 1 h
  simpa [nsmul_eq_mul] using this

/-- Helper: each consciousness boost computed by `updateGlobalState` lies
in `[0, 1/50]` once its raw input is nonnegative. -/
theorem boostCap_mem {x : ℚ} (hx : 0 ≤ x) :
    0 ≤ boostCap x ∧ boostCap x ≤ 1/50 := by
  unfold boostCap
  constructor
  · exact le_min (by norm_num) hx
  · exact min_le_left _ _

/-- C1 amended: the bounds that actually hold after `update()`.
`evolve()` clamps every consciousness parameter into `[0.1, 0.9]`
(`clampParam`), and the thread-confidence re-clamp keeps confidence and the
derived `uncertainty = 1 - confidence` in `[0, 1]`; but the AI experience's
`updateGlobalState` clamps the boosted parameters at 1 rather than 0.9, so
after a full tick the four parameters are only guaranteed to lie in
`[0.1, 0.92]` (`23/25 = 0.9 + 0.02`, the boost cap).  Ecosystem entity
energies are on the configured 10–100 scale, not `[0, 1]` (see the C1
counterexample for an in-tick negative energy). -/
theorem C1_amended_bounds (x y : ℚ) (s : AIGlobalState)
    (hp : ParamsIn s.params (1/10) (9/10))
    (hload : 0 ≤ s.processingLoad)
    (hth : ∀ t ∈ s.threads, 0 ≤ t.confidence ∧ t.confidence ≤ 1 ∧
      0 ≤ t.uncertainty ∧ t.uncertainty ≤ 1) :
    (1/10 ≤ clampParam x ∧ clampParam x ≤ 9/10) ∧
    (0 ≤ threadClampConfidence y ∧ threadClampConfidence y ≤ 1 ∧
     0 ≤ 1 - threadClampConfidence y ∧ 1 - threadClampConfidence y ≤ 1) ∧
    ParamsIn (updateGlobalState s).params (1/10) (23/25) := by
  obtain ⟨h1, h2, h3, h4, h5, h6, h7, h8⟩ := hp
  refine ⟨⟨le_max_left _ _, ?_⟩, ⟨le_max_left _ _, ?_, ?_, ?_⟩, ?_⟩
  · exact max_le (by norm_num) (min_le_left _ _)
  · exact max_le (by norm_num) (min_le_left _ _)
  · have : threadClampConfidence y ≤ 1 := max_le (by norm_num) (min_le_left _ _)
    linarith
  · have : (0 : ℚ) ≤ threadClampConfidence y := le_max_left _ _
    linarith
  · have hgu : (s.threads.map (fun t => t.uncertainty)).sum /
        (s.threads.length : ℚ) ≤ 1 := by
      rcases Nat.eq_zero_or_pos s.threads.length with hz | hpos
      · simp [hz]
      · rw [div_le_one (by exact_mod_cast hpos)]
        have hsum : (s.threads.map (fun t => t.uncertainty)).sum ≤
            ((s.threads.map (fun t => t.uncertainty)).length : ℚ) := by
          refine list_sum_le_length ?_
          intro u hu
          obtain ⟨t, ht, rfl⟩ := List.mem_map.mp hu
          exact (hth t ht).2.2.2
        simpa using hsum
    have hac : 0 ≤ getAverageConfidence s.threads := by
      unfold getAverageConfidence
      split
      · norm_num
      · refine div_nonneg ?_ (by positivity)
        refine List.sum_nonneg ?_
        intro u hu
        obtain ⟨t, ht, rfl⟩ := List.mem_map.mp hu
        exact (hth t ht).1
    have hbC : 0 ≤ boostCap (s.processingLoad * (1/100)) ∧
        boostCap (s.processingLoad * (1/100)) ≤ 1/50 :=
      boostCap_mem (mul_nonneg hload (by norm_num))
    have hbE : 0 ≤ boostCap ((s.insightCount : ℚ) * (2/1000)) ∧
        boostCap ((s.insightCount : ℚ) * (2/1000)) ≤ 1/50 :=
      boostCap_mem (mul_nonneg (by positivity) (by norm_num))
    have hbH : 0 ≤ boostCap (getAverageConfidence s.threads * (1/100)) ∧
        boostCap (getAverageConfidence s.threads * (1/100)) ≤ 1/50 :=
      boostCap_mem (mul_nonneg hac (by norm_num))
    have hbA : 0 ≤ boostCap ((1 - (s.threads.map (fun t => t.uncertainty)).sum /
          (s.threads.length : ℚ)) * (1/100)) ∧
        boostCap ((1 - (s.threads.map (fun t => t.uncertainty)).sum /
          (s.threads.length : ℚ)) * (1/100)) ≤ 1/50 :=
      boostCap_mem (mul_nonneg (by linarith) (by norm_num))
    simp only [updateGlobalState, ParamsIn]
    refine ⟨?_, ?_, ?_, ?_, ?_, ?_, ?_, ?_⟩ <;>
      first
        | exact le_min (by norm_num) (by linarith [hbC.1, hbE.1, hbH.1, hbA.1])
        | exact le_trans (min_le_right _ _)
            (by linarith [hbC.2, hbE.2, hbH.2, hbA.2])

/-- Witness state for `C1_amended_bounds`: a single mid-range thread and
mid-range parameters. -/
def c1WitnessState : AIGlobalState :=
  { threads := [{ confidence := 1/2, uncertainty := 1/2 }]
    insightCount := 0
    processingLoad := 0
    params := { complexity := 1/2, emergence := 1/2, coherence := 1/2,
                adaptation := 1/2 }
    globalUncertainty := 1/2
    averageConfidence := 1/2 }

/-- Witness for `C1_amended_bounds` at `x = 1`, `y = 2`, `c1WitnessState`. -/
theorem C1_amended_bounds_witness :
    (1/10 ≤ clampParam 1 ∧ clampParam 1 ≤ 9/10) ∧
    (0 ≤ threadClampConfidence 2 ∧ threadClampConfidence 2 ≤ 1 ∧
     0 ≤ 1 - threadClampConfidence 2 ∧ 1 - threadClampConfidence 2 ≤ 1) ∧
    ParamsIn (updateGlobalState c1WitnessState).params (1/10) (23/25) :=
  C1_amended_bounds 1 2 c1WitnessState
    (by norm_num [ParamsIn, c1WitnessState]) (by norm_num [c1WitnessState])
    (by intro t ht; simp only [c1WitnessState, List.mem_singleton] at ht
        subst ht; norm_num)

/-- Helper: for two entities of the same kind `handlePredatorPrey` never
fires (the predator and prey membership lists are disjoint), leaving the
pair unchanged. -/
theorem handlePredatorPrey_same_kind (e1 e2 : Entity) (d draw : ℚ)
    (h : e1.etype = e2.etype) : handlePredatorPrey e1 e2 d draw = (e1, e2) := by
  have h2 : e2.etype = e1.etype := h.symm
  cases he : e1.etype <;>
    simp [handlePredatorPrey, isPredatorType, isPreyType, he, h2.trans he]

/-- Same-kind entities used in the C3 counterexample: producers with
aggression `0.5` and energy 1 (both identical apart from id/position). -/
def c3EntityA : Entity :=
  { ident := 1, etype := .producer, x := 0, y := 0, energy := 1,
    maxEnergy := 2, age := 10,
    genetics := { speed := 1, size := 1, energy := 1, aggression := 1/2,
                  cooperation := 0, adaptability := 0, efficiency := 0 },
    reproductionCooldown := 0, relationships := [] }

/-- Interaction partner of `c3EntityA`. -/
def c3EntityB : Entity :=
  { c3EntityA with ident := 2, x := 20 }

/-- C3 counterexample: for the competition effect (base magnitude
`blendedAggression * 0.05 = 1/40`), the computed energy penalty at distance
20 equals the full unscaled penalty at distance 0 — the code contains no
`force *= 1 - distance/maxDistance` factor, so the effect does NOT scale
down linearly with distance: linear scaling would give `1/40 * (1 - 20/25)`
(activation radius `competitionRadius/2 = 25`) or `1/40 * (1 - 20/50)`
(configured radius 50), both different from the actual `1/40`. -/
theorem C3_counterexample :
    (handleEntityInteraction c3EntityA c3EntityB 0 1).1.energy = 1 - 1/40 ∧
    (handleEntityInteraction c3EntityA c3EntityB 20 1).1.energy = 1 - 1/40 ∧
    (1 : ℚ) - 1/40 ≠ 1 - (1/40) * (1 - 20/25) ∧
    (1 : ℚ) - 1/40 ≠ 1 - (1/40) * (1 - 20/50) := by
  refine ⟨?_, ?_, by norm_num, by norm_num⟩ <;>
    norm_num [handleEntityInteraction, competitionStep, cooperationStep,
      handlePredatorPrey, huntAttempt, c3EntityA, c3EntityB,
      competitionRadius, cooperationRadius, isPredatorType, isPreyType]


/-- Helper: the competition block never changes the entity kinds. -/
theorem competitionStep_etype (e1 e2 : Entity) (d : ℚ) :
    (competitionStep e1 e2 d).1.etype = e1.etype ∧
    (competitionStep e1 e2 d).2.etype = e2.etype := by
  unfold competitionStep
  split <;> exact ⟨rfl, rfl⟩

/-- Helper: recording a relationship edge leaves the kind unchanged. -/
theorem addRelationship_etype (e : Entity) (p : ℕ) (st : ℚ) :
    (addRelationship e p st).etype = e.etype := rfl

/-- Helper: recording a relationship edge leaves the energy unchanged. -/
theorem addRelationship_energy (e : Entity) (p : ℕ) (st : ℚ) :
    (addRelationship e p st).energy = e.energy := rfl

/-- Helper: the cooperation block never changes the entity kinds. -/
theorem cooperationStep_etype (e1 e2 : Entity) (d : ℚ) :
    (cooperationStep e1 e2 d).1.etype = e1.etype ∧
    (cooperationStep e1 e2 d).2.etype = e2.etype := by
  simp only [cooperationStep]
  split
  · split
    · exact ⟨addRelationship_etype _ _ _, addRelationship_etype _ _ _⟩
    · exact ⟨rfl, rfl⟩
  · exact ⟨rfl, rfl⟩

/-- Helper: the cooperation block skips same-kind pairs. -/
theorem cooperationStep_same_kind (e1 e2 : Entity) (d : ℚ)
    (h : e1.etype = e2.etype) : cooperationStep e1 e2 d = (e1, e2) := by
  unfold cooperationStep
  rw [if_neg (fun hc => hc.1 h)]

/-- Helper: the competition block skips different-kind pairs. -/
theorem competitionStep_diff_kind (e1 e2 : Entity) (d : ℚ)
    (h : e1.etype ≠ e2.etype) : competitionStep e1 e2 d = (e1, e2) := by
  unfold competitionStep
  rw [if_neg (fun hc => h hc.1)]

/-- Helper: the competition block does not fire at or beyond its radius. -/
theorem competitionStep_far (e1 e2 : Entity) (d : ℚ)
    (h : competitionRadius / 2 ≤ d) : competitionStep e1 e2 d = (e1, e2) := by
  unfold competitionStep
  rw [if_neg (fun hc => absurd hc.2 (not_lt.mpr h))]

/-- Helper: the cooperation block does not fire at or beyond its radius. -/
theorem cooperationStep_far (e1 e2 : Entity) (d : ℚ)
    (h : cooperationRadius ≤ d) : cooperationStep e1 e2 d = (e1, e2) := by
  unfold cooperationStep
  rw [if_neg (fun hc => absurd hc.2 (not_lt.mpr h))]

/-- Helper: with no predator in the pair, `handlePredatorPrey` is the
identity. -/
theorem handlePredatorPrey_no_predator (e1 e2 : Entity) (d draw : ℚ)
    (h1 : isPredatorType e1.etype = false)
    (h2 : isPredatorType e2.etype = false) :
    handlePredatorPrey e1 e2 d draw = (e1, e2) := by
  simp [handlePredatorPrey, h1, h2]

/-- Helper: on a same-kind pair the whole interaction handler reduces to
the competition block (cooperation requires different kinds, and the
predator/prey lists are disjoint). -/
theorem handleEntityInteraction_same_kind (e1 e2 : Entity) (d draw : ℚ)
    (heq : e1.etype = e2.etype) :
    handleEntityInteraction e1 e2 d draw = competitionStep e1 e2 d := by
  simp only [handleEntityInteraction]
  have h1 := (competitionStep_etype e1 e2 d).1
  have h2 := (competitionStep_etype e1 e2 d).2
  rw [cooperationStep_same_kind _ _ _ (by rw [h1, h2]; exact heq)]
  show handlePredatorPrey (competitionStep e1 e2 d).1
    (competitionStep e1 e2 d).2 d draw = competitionStep e1 e2 d
  rw [handlePredatorPrey_same_kind _ _ _ _ (by rw [h1, h2]; exact heq)]

/-- Helper: on a producer/symbiont pair the whole interaction handler
reduces to the cooperation block (competition requires the same kind, and
neither kind is in the predator list). -/
theorem handleEntityInteraction_prod_symb (e1 e2 : Entity) (d draw : ℚ)
    (h1 : e1.etype = .producer) (h2 : e2.etype = .symbiont) :
    handleEntityInteraction e1 e2 d draw = cooperationStep e1 e2 d := by
  simp only [handleEntityInteraction]
  rw [competitionStep_diff_kind _ _ _ (by rw [h1, h2]; simp)]
  show handlePredatorPrey (cooperationStep e1 e2 d).1
    (cooperationStep e1 e2 d).2 d draw = cooperationStep e1 e2 d
  have hb1 := (cooperationStep_etype e1 e2 d).1
  have hb2 := (cooperationStep_etype e1 e2 d).2
  rw [handlePredatorPrey_no_predator _ _ _ _
    (by rw [hb1, h1]; rfl) (by rw [hb2, h2]; rfl)]

/-- C3 amended: interaction effects are flat, not distance-scaled.  Inside
its activation radius every effect applies at the full base magnitude
regardless of distance (so distance 0 gives the unscaled magnitude), and at
or beyond the radius the branch simply does not fire (so the effect at the
boundary is exactly 0); there is no `1 - distance/maxDistance` factor.
Stated for the same-kind competition branch (activation radius
`competitionRadius / 2`) and the different-kind cooperation branch
(activation radius `cooperationRadius`, on a producer/symbiont pair, which
the predation lists never match). -/
theorem C3_amended_flat_effects :
    (∀ (e1 e2 : Entity) (d d' draw draw' : ℚ), e1.etype = e2.etype →
      d < competitionRadius / 2 → d' < competitionRadius / 2 →
      handleEntityInteraction e1 e2 d draw =
        handleEntityInteraction e1 e2 d' draw') ∧
    (∀ (e1 e2 : Entity) (d draw : ℚ), e1.etype = e2.etype →
      competitionRadius / 2 ≤ d →
      handleEntityInteraction e1 e2 d draw = (e1, e2)) ∧
    (∀ (e1 e2 : Entity) (d draw : ℚ), e1.etype = .producer →
      e2.etype = .symbiont → d < cooperationRadius →
      3/10 < (e1.genetics.cooperation + e2.genetics.cooperation) / 2 →
      (handleEntityInteraction e1 e2 d draw).1.energy =
        e1.energy + (e1.genetics.cooperation + e2.genetics.cooperation) / 2
          * (3/100) ∧
      (handleEntityInteraction e1 e2 d draw).2.energy =
        e2.energy + (e1.genetics.cooperation + e2.genetics.cooperation) / 2
          * (3/100)) ∧
    (∀ (e1 e2 : Entity) (d draw : ℚ), e1.etype = .producer →
      e2.etype = .symbiont → cooperationRadius ≤ d →
      handleEntityInteraction e1 e2 d draw = (e1, e2)) := by
  refine ⟨?_, ?_, ?_, ?_⟩
  · intro e1 e2 d d' draw draw' heq hd hd'
    rw [handleEntityInteraction_same_kind _ _ _ _ heq,
      handleEntityInteraction_same_kind _ _ _ _ heq]
    unfold competitionStep
    rw [if_pos ⟨heq, hd⟩, if_pos ⟨heq, hd'⟩]
  · intro e1 e2 d draw heq hd
    rw [handleEntityInteraction_same_kind _ _ _ _ heq,
      competitionStep_far _ _ _ hd]
  · intro e1 e2 d draw h1 h2 hd hco
    rw [handleEntityInteraction_prod_symb _ _ _ _ h1 h2]
    unfold cooperationStep
    rw [if_pos ⟨by rw [h1, h2]; simp, hd⟩, if_pos hco]
    exact ⟨rfl, rfl⟩
  · intro e1 e2 d draw h1 h2 hd
    rw [handleEntityInteraction_prod_symb _ _ _ _ h1 h2,
      cooperationStep_far _ _ _ hd]

/-- Producer used in the cooperation half of the C3 witness. -/
def c3EntityC : Entity :=
  { ident := 3, etype := .producer, x := 0, y := 0, energy := 1,
    maxEnergy := 2, age := 10,
    genetics := { speed := 1, size := 1, energy := 1, aggression := 0,
                  cooperation := 1/2, adaptability := 0, efficiency := 0 },
    reproductionCooldown := 0, relationships := [] }

/-- Symbiont partner of `c3EntityC`. -/
def c3EntityD : Entity :=
  { c3EntityC with ident := 4, etype := .symbiont, x := 10 }

/-- Witness for `C3_amended_flat_effects` on concrete pairs: same-kind
competition at distances 0 and 20 (equal results), at 25 (no effect), and
producer/symbiont cooperation at distance 10 (full magnitude) and 30 (no
effect). -/
theorem C3_amended_flat_effects_witness :
    handleEntityInteraction c3EntityA c3EntityB 0 0 =
      handleEntityInteraction c3EntityA c3EntityB 20 1 ∧
    handleEntityInteraction c3EntityA c3EntityB 25 0 = (c3EntityA, c3EntityB) ∧
    ((handleEntityInteraction c3EntityC c3EntityD 10 0).1.energy =
      c3EntityC.energy +
        (c3EntityC.genetics.cooperation + c3EntityD.genetics.cooperation) / 2
          * (3/100) ∧
     (handleEntityInteraction c3EntityC c3EntityD 10 0).2.energy =
      c3EntityD.energy +
        (c3EntityC.genetics.cooperation + c3EntityD.genetics.cooperation) / 2
          * (3/100)) ∧
    handleEntityInteraction c3EntityC c3EntityD 30 0 = (c3EntityC, c3EntityD) :=
  ⟨C3_amended_flat_effects.1 c3EntityA c3EntityB 0 20 0 1 rfl
      (by norm_num [competitionRadius]) (by norm_num [competitionRadius]),
   C3_amended_flat_effects.2.1 c3EntityA c3EntityB 25 0 rfl
      (by norm_num [competitionRadius]),
   C3_amended_flat_effects.2.2.1 c3EntityC c3EntityD 10 0 rfl rfl
      (by norm_num [cooperationRadius]) (by norm_num [c3EntityC, c3EntityD]),
   C3_amended_flat_effects.2.2.2 c3EntityC c3EntityD 30 0 rfl rfl
      (by norm_num [cooperationRadius])⟩

/-- C5: for a predator/prey pair (membership lists) within
`predator.size * 3`, a successful hunt draw (probability
`huntSuccess * 0.1`, `huntSuccess = predatorSpeed / (preySpeed + 0.1)`)
adds exactly `0.3 * prey.energy` to the predator and leaves the prey with
exactly `0.3` of its pre-attack energy; a failed draw changes nothing; and
the interaction loop enumerates every unordered index pair exactly once
(`allPairs` is duplicate-free and `(i, j)` occurs iff `i < j < n`), so at
most one attempt happens per qualifying pair per tick. -/
theorem C5_predation_transfer :
    (∀ (e1 e2 : Entity) (dist draw : ℚ),
      isPredatorType e1.etype = true → isPreyType e2.etype = true →
      dist < e1.genetics.size * 3 →
      draw < e1.genetics.speed / (e2.genetics.speed + 1/10) * (1/10) →
      (handlePredatorPrey e1 e2 dist draw).1.energy =
        e1.energy + e2.energy * (3/10) ∧
      (handlePredatorPrey e1 e2 dist draw).2.energy = e2.energy * (3/10)) ∧
    (∀ (e1 e2 : Entity) (dist draw : ℚ),
      isPredatorType e1.etype = true → isPreyType e2.etype = true →
      ¬(draw < e1.genetics.speed / (e2.genetics.speed + 1/10) * (1/10)) →
      handlePredatorPrey e1 e2 dist draw = (e1, e2)) ∧
    (∀ n : ℕ, (allPairs n).Nodup) ∧
    (∀ n i j : ℕ, (i, j) ∈ allPairs n ↔ i < j ∧ i < n ∧ j < n) := by
  refine ⟨?_, ?_, ?_, ?_⟩
  · intro e1 e2 dist draw h1 h2 hdist hdraw
    unfold handlePredatorPrey huntAttempt
    rw [if_pos ⟨h1, h2⟩, if_pos hdist, if_pos hdraw]
    exact ⟨rfl, rfl⟩
  · intro e1 e2 dist draw h1 h2 hdraw
    unfold handlePredatorPrey huntAttempt
    rw [if_pos ⟨h1, h2⟩, if_neg hdraw, ite_self]
  · intro n
    exact ((List.nodup_range n).product (List.nodup_range n)).filter _
  · intro n i j
    simp only [allPairs, List.mem_filter, List.pair_mem_product,
      List.mem_range, decide_eq_true_eq]
    tauto

/-- Predator for the C5 witness (speed 2, size 1). -/
def c5Predator : Entity :=
  { ident := 5, etype := .predator, x := 0, y := 0, energy := 1,
    maxEnergy := 2, age := 10,
    genetics := { speed := 2, size := 1, energy := 1, aggression := 0,
                  cooperation := 0, adaptability := 0, efficiency := 0 },
    reproductionCooldown := 0, relationships := [] }

/-- Prey for the C5 witness (consumer, speed 1, energy 1). -/
def c5Prey : Entity :=
  { ident := 6, etype := .consumer, x := 0, y := 0, energy := 1,
    maxEnergy := 2, age := 10,
    genetics := { speed := 1, size := 1, energy := 1, aggression := 0,
                  cooperation := 0, adaptability := 0, efficiency := 0 },
    reproductionCooldown := 0, relationships := [] }

/-- Witness for `C5_predation_transfer`: the scenario pair at distance 0
with a succeeding draw (0 < 2/11) and a failing draw (1 ≥ 2/11), plus the
pair enumeration at `n = 3`. -/
theorem C5_predation_transfer_witness :
    ((handlePredatorPrey c5Predator c5Prey 0 0).1.energy =
      c5Predator.energy + c5Prey.energy * (3/10) ∧
     (handlePredatorPrey c5Predator c5Prey 0 0).2.energy =
      c5Prey.energy * (3/10)) ∧
    handlePredatorPrey c5Predator c5Prey 0 1 = (c5Predator, c5Prey) ∧
    (allPairs 3).Nodup ∧
    ((0, 1) ∈ allPairs 3 ↔ 0 < 1 ∧ 0 < 3 ∧ 1 < 3) :=
  ⟨C5_predation_transfer.1 c5Predator c5Prey 0 0 rfl rfl
      (by norm_num [c5Predator]) (by norm_num [c5Predator, c5Prey]),
   C5_predation_transfer.2.1 c5Predator c5Prey 0 1 rfl rfl
      (by norm_num [c5Predator, c5Prey]),
   C5_predation_transfer.2.2.1 3,
   C5_predation_transfer.2.2.2 3 0 1⟩

/-- C4: with a population of exactly two reproduction-eligible agents
(`energy > 0.8 * maxEnergy`, zero cooldown, `age > 50`), the pair draw
forced to succeed and the offspring mutation gate not firing, one
`handleReproduction` pass yields population size 3; both parents keep
exactly `0.7` of their pre-reproduction energy (and get cooldown 100); the
offspring has `age = 0` and its genetic trait vector is exactly the
component-wise mean of the two parents' trait vectors. -/
theorem C4_reproduction_conservation (p1 p2 : Entity) (draw : ℕ → Bool)
    (orand : ℕ → OffspringRand)
    (h1 : isReproducer p1 = true) (h2 : isReproducer p2 = true)
    (hdraw : draw 0 = true) (hmut : (orand 0).mutGate = false) :
    (handleReproductionPop [p1, p2] draw orand).length = 3 ∧
    (handleReproductionPop [p1, p2] draw orand)[0]!.energy =
      p1.energy * (7/10) ∧
    (handleReproductionPop [p1, p2] draw orand)[1]!.energy =
      p2.energy * (7/10) ∧
    (handleReproductionPop [p1, p2] draw orand)[2]!.age = 0 ∧
    (handleReproductionPop [p1, p2] draw orand)[2]!.genetics =
      mixGenetics p1.genetics p2.genetics := by
  have hres : handleReproductionPop [p1, p2] draw orand =
      [{ p1 with energy := p1.energy * (7/10), reproductionCooldown := 100 },
       { p2 with energy := p2.energy * (7/10), reproductionCooldown := 100 },
       createOffspring p1 p2 (orand 0)] := by
    simp [handleReproductionPop, List.enum, List.enumFrom, h1, h2, hdraw, chunkPairs]
  rw [hres]
  refine ⟨rfl, rfl, rfl, ?_, ?_⟩
  · simp [createOffspring, createEntityFromParent]
  · simp [createOffspring, applyMutation, hmut]

/-- Scenario parent 1 for the C4 witness: energy 1.0 = maxEnergy, cooldown
0, age 100, all traits 1. -/
def c4Parent1 : Entity :=
  { ident := 7, etype := .consumer, x := 0, y := 0, energy := 1,
    maxEnergy := 1, age := 100,
    genetics := { speed := 1, size := 1, energy := 1, aggression := 1,
                  cooperation := 1, adaptability := 1, efficiency := 1 },
    reproductionCooldown := 0, relationships := [] }

/-- Scenario parent 2 for the C4 witness: like parent 1 but all traits 2. -/
def c4Parent2 : Entity :=
  { c4Parent1 with
    ident := 8
    genetics := { speed := 2, size := 2, energy := 2, aggression := 2,
                  cooperation := 2, adaptability := 2, efficiency := 2 } }

/-- Offspring randomness for the C4 witness: the mutation gate does not
fire. -/
def c4Rand : OffspringRand :=
  { er := { gate := false, dSpeed := 0, dSize := 0, dEnergy := 0, dAggr := 0,
            dCoop := 0, ident := 9, px := 0, py := 0 }
    mutGate := false
    mutDraws := { speed := 0, size := 0, energy := 0, aggression := 0,
                  cooperation := 0, adaptability := 0, efficiency := 0 }
    jx := 1/2
    jy := 1/2 }

/-- Witness for `C4_reproduction_conservation` on the scenario population
of two eligible parents with the pair draw forced to succeed. -/
theorem C4_reproduction_conservation_witness :
    (handleReproductionPop [c4Parent1, c4Parent2] (fun _ => true)
      (fun _ => c4Rand)).length = 3 ∧
    (handleReproductionPop [c4Parent1, c4Parent2] (fun _ => true)
      (fun _ => c4Rand))[0]!.energy = c4Parent1.energy * (7/10) ∧
    (handleReproductionPop [c4Parent1, c4Parent2] (fun _ => true)
      (fun _ => c4Rand))[1]!.energy = c4Parent2.energy * (7/10) ∧
    (handleReproductionPop [c4Parent1, c4Parent2] (fun _ => true)
      (fun _ => c4Rand))[2]!.age = 0 ∧
    (handleReproductionPop [c4Parent1, c4Parent2] (fun _ => true)
      (fun _ => c4Rand))[2]!.genetics =
      mixGenetics c4Parent1.genetics c4Parent2.genetics :=
  C4_reproduction_conservation c4Parent1 c4Parent2 (fun _ => true)
    (fun _ => c4Rand)
    (by norm_num [isReproducer, c4Parent1])
    (by norm_num [isReproducer, c4Parent2, c4Parent1])
    rfl rfl

/-! ## C6: mutation structure of `createOffspring` -/

/-- Names of the seven genetic traits. -/
inductive TraitName where
  | speed
  | size
  | energy
  | aggression
  | cooperation
  | adaptability
  | efficiency
deriving DecidableEq, Repr

/-- Trait projection by name. -/
def Genetics.trait (g : Genetics) : TraitName → ℚ
  | .speed => g.speed
  | .size => g.size
  | .energy => g.energy
  | .aggression => g.aggression
  | .cooperation => g.cooperation
  | .adaptability => g.adaptability
  | .efficiency => g.efficiency

/-- Whether the mutation block of `createOffspring` applies a perturbation
to a given trait, as a function of the random draws: the source guards the
perturbation of EVERY trait with the one shared draw
`Math.random() < config.mutationRate` (the `gate` of `applyMutation`), so
the indicator is the gate itself, for every trait name. -/
def traitMutationApplied (gate : Bool) (_t : TraitName) : Bool := gate

/-- Probability of an event over the single Bernoulli gate draw
(`Math.random() < p` holds with probability `p` for a uniform draw). -/
def bernoulliProb (p : ℚ) (ev : Bool → Bool) : ℚ :=
  (if ev true then p else 0) + (if ev false then 1 - p else 0)

/-- All-ones genetics (a possible parents' component-wise mean). -/
def c6Ones : Genetics :=
  { speed := 1, size := 1, energy := 1, aggression := 1, cooperation := 1,
    adaptability := 1, efficiency := 1 }

/-- Genetics with every trait `1.05 = 1 * (1 + (1 - 0.5) * 0.1)`. -/
def c6AllMutated : Genetics :=
  { speed := 21/20, size := 21/20, energy := 21/20, aggression := 21/20,
    cooperation := 21/20, adaptability := 21/20, efficiency := 21/20 }

/-- C6 counterexample: the traits are NOT mutated independently.  In
`createOffspring` a single draw gates the whole mutation block, so (at the
configured `mutationRate = 0.1`) the probability that both the speed trait
and the cooperation trait are mutated is `0.1`, whereas independent
per-trait mutation with probability `0.1` would give `0.1 * 0.1 = 0.01` —
and concretely, on the all-ones parent mean with all perturbation draws at
1, the offspring genetics are either changed in every trait (gate fires:
all become 1.05) or changed in none (gate silent): no outcome mutates one
trait but not another. -/
theorem C6_counterexample :
    bernoulliProb (1/10) (fun g =>
      traitMutationApplied g .speed && traitMutationApplied g .cooperation)
      = 1/10 ∧
    bernoulliProb (1/10) (fun g => traitMutationApplied g .speed) *
      bernoulliProb (1/10) (fun g => traitMutationApplied g .cooperation)
      = 1/100 ∧
    (1/10 : ℚ) ≠ 1/100 ∧
    applyMutation true c6Ones c6Ones = c6AllMutated ∧
    applyMutation false c6Ones c6Ones = c6Ones ∧
    c6AllMutated ≠ c6Ones := by
  refine ⟨by norm_num [bernoulliProb, traitMutationApplied],
    by norm_num [bernoulliProb, traitMutationApplied], by norm_num, ?_, ?_, ?_⟩
  · simp [applyMutation, c6Ones, c6AllMutated, max_def]
    norm_num
  · simp [applyMutation]
  · simp [c6Ones, c6AllMutated, Genetics.mk.injEq]
    norm_num

/-- Predicate: every trait of `g` is at least `c`. -/
def GeneticsAllGe (g : Genetics) (c : ℚ) : Prop :=
  c ≤ g.speed ∧ c ≤ g.size ∧ c ≤ g.energy ∧ c ≤ g.aggression ∧
  c ≤ g.cooperation ∧ c ≤ g.adaptability ∧ c ≤ g.efficiency

/-- Predicate: every trait of `g` is strictly positive. -/
def GeneticsAllPos (g : Genetics) : Prop :=
  0 < g.speed ∧ 0 < g.size ∧ 0 < g.energy ∧ 0 < g.aggression ∧
  0 < g.cooperation ∧ 0 < g.adaptability ∧ 0 < g.efficiency

/-- C6 amended: mutation in `createOffspring` is all-or-none per offspring —
one draw with probability `config.mutationRate` decides mutation of the
whole trait vector.  When the gate does not fire the genetics pass through
unchanged; when it fires, every trait is perturbed multiplicatively by
`1 + (draw - 0.5) * 0.1` (its own independent draw) and floor-clamped to
`0.1`, so every mutated trait is at least `0.1`; in particular, starting
from positive traits, no trait ever becomes zero or negative. -/
theorem C6_amended_single_gate (gate : Bool) (d g : Genetics)
    (hpos : GeneticsAllPos g) :
    applyMutation false d g = g ∧
    (gate = true → GeneticsAllGe (applyMutation gate d g) (1/10)) ∧
    GeneticsAllPos (applyMutation gate d g) := by
  refine ⟨by simp [applyMutation], ?_, ?_⟩
  · intro hg
    subst hg
    simp only [applyMutation, if_true]
    exact ⟨le_max_left _ _, le_max_left _ _, le_max_left _ _, le_max_left _ _,
      le_max_left _ _, le_max_left _ _, le_max_left _ _⟩
  · cases gate
    · simpa [applyMutation] using hpos
    · simp only [applyMutation, if_true]
      have h : ∀ x : ℚ, (0 : ℚ) < max (1/10) x :=
        fun x => lt_of_lt_of_le (by norm_num) (le_max_left _ _)
      exact ⟨h _, h _, h _, h _, h _, h _, h _⟩

/-- Witness for `C6_amended_single_gate` at a firing gate on the all-ones
genetics. -/
theorem C6_amended_single_gate_witness :
    applyMutation false c6Ones c6Ones = c6Ones ∧
    (true = true → GeneticsAllGe (applyMutation true c6Ones c6Ones) (1/10)) ∧
    GeneticsAllPos (applyMutation true c6Ones c6Ones) :=
  C6_amended_single_gate true c6Ones c6Ones
    (by norm_num [GeneticsAllPos, c6Ones])

/-! ## C7: initialize / reset -/

/-- Entity generator used in the C7 counterexample (the claim concerns
collection sizes only, so the generated contents may be arbitrary). -/
def c7Gen : EntityType → ℕ → Entity := fun _ _ => default

/-- Resource generator used in the C7 counterexample. -/
def c7Res : ℕ → Resource := fun _ =>
  { x := 0, y := 0, value := 10, isEnergyKind := true, regeneration := 1/10 }

/-- Toxin used in the C7 counterexample (its draw never fires below). -/
def c7Toxin : Toxin :=
  { x := 0, y := 0, radius := 20, toxicity := 1/2, decay := 1/50 }

/-- Empty ecosystem state (all collections empty, constructor scalars). -/
def c7Empty : EcoState :=
  { populations := fun _ => [], resources := [], toxins := [],
    temperature := 1/2, oxygen := 8/10, nutrients := 6/10,
    metrics := zeroMetrics }

/-- C7 counterexample: `initialize()` is NOT idempotent.  It appends the
seeded entities and resources to the existing collections without clearing
them, so on an 800×600 canvas a second call grows every population from 30
to 60 entities and the resource set from 68 to 136 patches. -/
theorem C7_counterexample :
    ((ecoInitialize 800 600 c7Gen c7Res false c7Toxin c7Empty).populations
      .producer).length = 30 ∧
    ((ecoInitialize 800 600 c7Gen c7Res false c7Toxin
      (ecoInitialize 800 600 c7Gen c7Res false c7Toxin c7Empty)).populations
      .producer).length = 60 ∧
    (60 : ℕ) ≠ 30 ∧
    (ecoInitialize 800 600 c7Gen c7Res false c7Toxin c7Empty).resources.length
      = 68 ∧
    (ecoInitialize 800 600 c7Gen c7Res false c7Toxin
      (ecoInitialize 800 600 c7Gen c7Res false c7Toxin c7Empty)).resources.length
      = 136 ∧
    (136 : ℕ) ≠ 68 := by
  have hn : numInitResources 800 600 = 68 := by
    unfold numInitResources
    rw [show ((800 : ℕ) : ℚ) * ((600 : ℕ) : ℚ) * (7/10) / 5000 = 336/5 by
      norm_num]
    rw [Nat.ceil_eq_iff (by norm_num)]
    norm_num
  refine ⟨?_, ?_, by norm_num, ?_, ?_, by norm_num⟩ <;>
    simp [ecoInitialize, initializePopulations, initializeEnvironment,
      c7Empty, entitiesPerType, hn]

/-- C7 amended: `initialize()` appends `entitiesPerType` (= 30) fresh
entities to every population and `numInitResources` fresh patches to the
resource set, growing the collections on every call — it is not idempotent.
`reset()` first clears all populations and the environment and then calls
`initialize()`, so a `reset()` always leaves exactly 30 entities per
population and exactly the seeded resource count, regardless of the prior
state: `reset()`, not `initialize()`, is the safe-to-repeat entry point. -/
theorem C7_amended_initialize_appends (w h : ℕ) (gen : EntityType → ℕ → Entity)
    (genR : ℕ → Resource) (toxinDraw : Bool) (genT : Toxin) (s : EcoState) :
    (∀ t, ((ecoInitialize w h gen genR toxinDraw genT s).populations t).length
      = (s.populations t).length + entitiesPerType) ∧
    (ecoInitialize w h gen genR toxinDraw genT s).resources.length
      = s.resources.length + numInitResources w h ∧
    (∀ t, ((ecoReset w h gen genR toxinDraw genT s).populations t).length
      = entitiesPerType) ∧
    (ecoReset w h gen genR toxinDraw genT s).resources.length
      = numInitResources w h := by
  refine ⟨fun t => ?_, ?_, fun t => ?_, ?_⟩ <;>
    simp [ecoInitialize, ecoReset, initializePopulations,
      initializeEnvironment]

/-- C8: the association set of a tick is recomputed from scratch.  The
simulation stores no association collection: `handleInteractions` derives
the interacting pairs purely from the entity list it is given, so
membership at any tick is equivalent to proximity at that tick — in
particular, a pair associated at tick N whose entities are no longer within
the radius at tick N+1 is absent from tick N+1's association set, whatever
the earlier set contained. -/
theorem C8_no_stale_associations :
    (∀ (es : List Entity) (p : ℕ × ℕ),
      p ∈ tickAssociations es → WithinRadiusPair es p) ∧
    (∀ (esN esN1 : List Entity) (p : ℕ × ℕ),
      p ∈ tickAssociations esN → ¬ WithinRadiusPair esN1 p →
      p ∉ tickAssociations esN1) := by
  have key : ∀ (es : List Entity) (p : ℕ × ℕ),
      p ∈ tickAssociations es → WithinRadiusPair es p := by
    intro es p hp
    obtain ⟨i, j⟩ := p
    simp only [tickAssociations, allPairs, List.mem_filter,
      List.pair_mem_product, List.mem_range, decide_eq_true_eq] at hp
    exact ⟨hp.1.2, hp.1.1.2, hp.2⟩
  exact ⟨key, fun esN esN1 p hpN hnot hpN1 => hnot (key esN1 p hpN1)⟩

/-- Entity at the origin for the C8 witness. -/
def c8A : Entity :=
  { ident := 10, etype := .producer, x := 0, y := 0, energy := 1,
    maxEnergy := 2, age := 10,
    genetics := { speed := 1, size := 1, energy := 1, aggression := 0,
                  cooperation := 0, adaptability := 0, efficiency := 0 },
    reproductionCooldown := 0, relationships := [] }

/-- Partner of `c8A` at distance 10 (tick N). -/
def c8BNear : Entity := { c8A with ident := 11, x := 10 }

/-- The same partner moved to distance 100 (tick N + 1). -/
def c8BFar : Entity := { c8A with ident := 11, x := 100 }

/-- Witness for `C8_no_stale_associations`: the pair `(0, 1)` is associated
while at distance 10 but absent from the association set once the entities
sit at distance 100. -/
theorem C8_no_stale_associations_witness :
    (0, 1) ∈ tickAssociations [c8A, c8BNear] ∧
    ¬ WithinRadiusPair [c8A, c8BFar] (0, 1) ∧
    (0, 1) ∉ tickAssociations [c8A, c8BFar] := by
  have h1 : (0, 1) ∈ tickAssociations [c8A, c8BNear] := by
    simp only [tickAssociations, allPairs, List.mem_filter,
      List.pair_mem_product, List.mem_range, decide_eq_true_eq]
    norm_num [distSq, c8A, c8BNear, competitionRadius]
  have h2 : ¬ WithinRadiusPair [c8A, c8BFar] (0, 1) := by
    simp only [WithinRadiusPair, not_and]
    intro _ _
    norm_num [distSq, c8A, c8BFar, competitionRadius]
  exact ⟨h1, h2, C8_no_stale_associations.2 [c8A, c8BNear] [c8A, c8BFar]
    (0, 1) h1 h2⟩

/-- C9 counterexample: an exception in the ecosystem's `update()` — which
has no `try`/`catch` — escalates out of the orchestrator's
`updateSimulations` pass (itself catch-free), so the claim that every
subsystem catches at the top of its `update()` and no exception reaches the
caller is false; the consciousness-stream and AI-experience updates later
in the iteration order are skipped that tick (when every subsystem
succeeds, the same pass returns the fully updated state: second
conjunct). -/
theorem C9_counterexample :
    @updateSimulationsAll ℕ String
      (fun s => .ok s) (fun s => .ok s) (fun _ => .error "eco boom")
      (fun s => .ok (s + 1)) (fun s => .ok (s + 10)) (fun _ s => s) 0
      = .error "eco boom" ∧
    @updateSimulationsAll ℕ String
      (fun s => .ok s) (fun s => .ok s) (fun s => .ok s)
      (fun s => .ok (s + 1)) (fun s => .ok (s + 10)) (fun _ s => s) 0
      = .ok 11 := by
  constructor <;> rfl

/-- C9 amended: only the AI-experience subsystem catches exceptions at the
top of its `update()` (an exception from its body is swallowed and handed
to the recovery code, and never escalates).  The other subsystem updates
and the orchestrator's `updateSimulations` have no `try`/`catch`: when the
first four updates succeed the pass completes — even if the AI body throws
— but an exception in the ecosystem's update escalates to the caller of
`updateSimulations`, skipping the subsystems after it in the iteration
order for that tick. -/
theorem C9_amended_only_ai_catches {σ ε : Type}
    (neural cellular eco consc aiBody : σ → Except ε σ)
    (aiRecover : ε → σ → σ) (s s1 s2 s3 s4 : σ) (e e' : ε) :
    (neural s = .ok s1 → cellular s1 = .ok s2 → eco s2 = .ok s3 →
      consc s3 = .ok s4 →
      updateSimulationsAll neural cellular eco consc aiBody aiRecover s =
        .ok (aiUpdateTop aiBody aiRecover s4)) ∧
    (aiBody s4 = .error e' → aiUpdateTop aiBody aiRecover s4 = aiRecover e' s4) ∧
    (neural s = .ok s1 → cellular s1 = .ok s2 → eco s2 = .error e →
      updateSimulationsAll neural cellular eco consc aiBody aiRecover s =
        .error e) := by
  refine ⟨?_, ?_, ?_⟩
  · intro hn hc he hco
    simp [updateSimulationsAll, Bind.bind, Except.bind, Functor.map,
      Except.map, Pure.pure, Except.pure, hn, hc, he, hco]
  · intro hai
    simp [aiUpdateTop, hai]
  · intro hn hc he
    simp [updateSimulationsAll, Bind.bind, Except.bind, Functor.map,
      Except.map, hn, hc, he]

/-- Witness for `C9_amended_only_ai_catches` on concrete subsystem bodies
over `σ = ℕ`, `ε = String`: the AI body always throws yet the pass
completes via the recovery path; an ecosystem failure propagates. -/
theorem C9_amended_only_ai_catches_witness :
    ((fun s => Except.ok s : ℕ → Except String ℕ) 0 = .ok 0 →
      (fun s => Except.ok s : ℕ → Except String ℕ) 0 = .ok 0 →
      (fun s => Except.ok (s + 2) : ℕ → Except String ℕ) 0 = .ok 2 →
      (fun s => Except.ok (s + 1) : ℕ → Except String ℕ) 2 = .ok 3 →
      @updateSimulationsAll ℕ String (fun s => .ok s) (fun s => .ok s)
        (fun s => .ok (s + 2)) (fun s => .ok (s + 1))
        (fun _ => .error "ai boom") (fun _ s => s + 100) 0 =
        .ok (aiUpdateTop (fun _ => .error "ai boom") (fun _ s => s + 100) 3)) ∧
    ((fun _ => Except.error "ai boom" : ℕ → Except String ℕ) 3 =
        .error "ai boom" →
      aiUpdateTop (fun _ => .error "ai boom" : ℕ → Except String ℕ)
        (fun _ s => s + 100) 3 = (fun _ s => s + 100) "ai boom" 3) ∧
    ((fun s => Except.ok s : ℕ → Except String ℕ) 0 = .ok 0 →
      (fun s => Except.ok s : ℕ → Except String ℕ) 0 = .ok 0 →
      (fun s => Except.ok (s + 2) : ℕ → Except String ℕ) 0 = .error "eco" →
      @updateSimulationsAll ℕ String (fun s => .ok s) (fun s => .ok s)
        (fun s => .ok (s + 2)) (fun s => .ok (s + 1))
        (fun _ => .error "ai boom") (fun _ s => s + 100) 0 = .error "eco") :=
  C9_amended_only_ai_catches (fun s => .ok s) (fun s => .ok s)
    (fun s => .ok (s + 2)) (fun s => .ok (s + 1))
    (fun _ => .error "ai boom") (fun _ s => s + 100) 0 0 0 2 3 "eco" "ai boom"

/-- C10: `getState()` is total on an empty simulation.  The averages guard
the division with `allEntities.length > 0 ? ... : 0`, so with every
population empty `avgAge = 0` and `avgEnergy = 0` (not NaN), and every
other snapshot field is still the defined copy (counts 0, metrics and
environment copied). -/
theorem C10_getState_empty_total (s : EcoState)
    (h : ∀ t, s.populations t = []) :
    (getEcoState s).avgAge = 0 ∧
    (getEcoState s).avgEnergy = 0 ∧
    (getEcoState s).entityCount = 0 ∧
    (getEcoState s).totalConnections = 0 ∧
    (∀ t, (getEcoState s).populationCounts t = 0) ∧
    (getEcoState s).metrics = s.metrics ∧
    (getEcoState s).temperature = s.temperature ∧
    (getEcoState s).oxygen = s.oxygen ∧
    (getEcoState s).nutrients = s.nutrients := by
  have hall : allEntities s = [] := by
    simp [allEntities, allEntityTypes, h]
  refine ⟨?_, ?_, ?_, ?_, fun t => ?_, rfl, rfl, rfl, rfl⟩ <;>
    simp [getEcoState, hall, h]

/-- Witness for `C10_getState_empty_total` on the concrete empty state. -/
theorem C10_getState_empty_total_witness :
    (getEcoState c7Empty).avgAge = 0 ∧
    (getEcoState c7Empty).avgEnergy = 0 ∧
    (getEcoState c7Empty).entityCount = 0 ∧
    (getEcoState c7Empty).totalConnections = 0 ∧
    (∀ t, (getEcoState c7Empty).populationCounts t = 0) ∧
    (getEcoState c7Empty).metrics = c7Empty.metrics ∧
    (getEcoState c7Empty).temperature = c7Empty.temperature ∧
    (getEcoState c7Empty).oxygen = c7Empty.oxygen ∧
    (getEcoState c7Empty).nutrients = c7Empty.nutrients :=
  C10_getState_empty_total c7Empty (fun _ => rfl)
